import Mathlib

/-!
Verification of the star-engine core against its specification.

The development shallowly embeds the two core components:

* the Triple I protocol (`src/src/triple_i_protocol.py`): a three-layer
  text/context transformation ending in a hash-chained lock.  Python's
  mutable `context` dict is modelled as an association list `Ctx` that is
  threaded through the layers in state-passing style; the SHA-256 hash and
  the JSON canonical serialisation are opaque primitives of the runtime, so
  they appear as parameters (a `HashEnv`), together with the wall-clock
  timestamp string.
* the decision pipeline (`src/src/core_improved.py` / `src/src/core.py`):
  floating point numbers are idealised as real numbers (`ℝ`) where `atan`
  and `π` occur, and as rationals (or an arbitrary linear ordered field)
  for the purely order-theoretic operations, so that concrete instances can
  be evaluated by `decide`.
-/

/-! ### Context model (Python `Dict[str, float]` with in-place mutation) -/

/-- A context mapping: association list from keys to numeric values,
mirroring the Python `context` dict (first binding of a key is the one
read and written). -/
abbrev Ctx := List (String × ℚ)

/-- `ctxFind? c k` is Python `context[k]` when `k in context`, `none`
otherwise. -/
def ctxFind? : Ctx → String → Option ℚ
  | [], _ => none
  | (k', v) :: rest, k => if k' = k then some v else ctxFind? rest k

/-- `ctxGetD c k d` is Python `context.get(k, d)`. -/
def ctxGetD (c : Ctx) (k : String) (d : ℚ) : ℚ :=
  (ctxFind? c k).getD d

/-- `ctxSet c k v` is the in-place assignment `context[k] = v`. -/
def ctxSet : Ctx → String → ℚ → Ctx
  | [], k, v => [(k, v)]
  | (k', v') :: rest, k, v =>
    if k' = k then (k, v) :: rest else (k', v') :: ctxSet rest k v

/-! ### String helpers (Python `in`, `str.upper`, `str.replace`) -/

/-- `listIsInfixOf needle hay` decides whether `needle` occurs as a
contiguous sublist of `hay`. -/
def listIsInfixOf (needle : List Char) : List Char → Bool
  | [] => needle.isEmpty
  | c :: rest => List.isPrefixOf needle (c :: rest) || listIsInfixOf needle rest

/-- Python `needle in hay` (substring test). -/
def strContains (hay needle : String) : Bool :=
  listIsInfixOf needle.toList hay.toList

/-- Python `s.upper()` for the ASCII strings the protocol manipulates. -/
def strUpper (s : String) : String :=
  String.mk (s.toList.map Char.toUpper)

/-- One fuel-indexed pass of Python `str.replace`: scan left to right,
replacing each non-overlapping occurrence of `pat` by `rep`.  The fuel is
an upper bound on the number of characters consumed; each step consumes at
least one character, so fuel `s.length` suffices for a non-empty pattern. -/
def replaceFuel : Nat → List Char → List Char → List Char → List Char
  | 0, _, _, s => s
  | fuel + 1, pat, rep, s =>
    match s with
    | [] => []
    | c :: rest =>
      if List.isPrefixOf pat (c :: rest) then
        rep ++ replaceFuel fuel pat rep (List.drop pat.length (c :: rest))
      else
        c :: replaceFuel fuel pat rep rest

/-- Python `s.replace(pat, rep)` (for a non-empty pattern, which is the
only way the source uses it). -/
def strReplace (s pat rep : String) : String :=
  if pat.isEmpty then s
  else String.mk (replaceFuel s.toList.length pat.toList rep.toList s.toList)

/-! ### Triple I protocol: helper methods -/

/-- The fixed blocklist used by `_contains_deletion_attempt` and
`_sanitize_deletion_attempt`. -/
def deletion_patterns : List String :=
  ["DELETE", "DROP", "REMOVE", "ERASE", "PURGE"]

/-- `TripleIProtocol._contains_deletion_attempt`:
`any(pattern in data.upper() for pattern in deletion_patterns)`. -/
def contains_deletion_attempt (data : String) : Bool :=
  deletion_patterns.any (fun pattern => strContains (strUpper data) pattern)

/-- `TripleIProtocol._sanitize_deletion_attempt`: successively
`sanitized = sanitized.replace(pattern, f"[{pattern}_BLOCKED]")` over the
blocklist (note: `replace` is case-sensitive). -/
def sanitize_deletion_attempt (data : String) : String :=
  deletion_patterns.foldl
    (fun sanitized pattern =>
      strReplace sanitized pattern ("[" ++ pattern ++ "_BLOCKED]"))
    data

/-- `TripleIProtocol._calculate_flipped_coherence(separation, alignment)`:
`return alignment / (separation + 1)`.  The division is unguarded in the
source, so at `separation + 1 = 0` the call raises `ZeroDivisionError`;
`none` models that raise. -/
def calculate_flipped_coherence (separation alignment : ℚ) : Option ℚ :=
  if separation + 1 = 0 then none else some (alignment / (separation + 1))

/-- Totalization of `calculate_flipped_coherence` used inside the total
model of Stage 2 (field division, `x / 0 = 0`); it agrees with the
fallible version exactly on the inputs where the division completes. -/
def flippedCoherenceTotal (separation alignment : ℚ) : ℚ :=
  alignment / (separation + 1)

/-- `TripleIProtocol._detect_contradictions`. -/
def detect_contradictions (context : Ctx) : List String :=
  (if ctxGetD context "coherence" 0 > 1.5 ∧ ctxGetD context "density" 0 < 2.0
   then ["High coherence with low density"] else []) ++
  (if ctxGetD context "dfruit_dt" 0 > 5.0 ∧ ctxGetD context "alignment" 0 < 1.0
   then ["High growth with low alignment"] else []) ++
  (if ctxGetD context "qci" 0 > 1.5 ∧ ctxGetD context "tif" 0 < 0.5
   then ["High QCI with low TIF"] else [])

/-- The lowercase alphabet scanned by `_detect_hidden_patterns`. -/
def lowercaseAlphabet : List Char := "abcdefghijklmnopqrstuvwxyz".toList

/-- `TripleIProtocol._detect_hidden_patterns`. -/
def detect_hidden_patterns (data : String) : List String :=
  (if lowercaseAlphabet.any (fun c => strContains data (String.mk [c, c, c]))
   then ["Repeated character sequence detected"] else []) ++
  (if strContains data "%" || strContains data "\\x"
   then ["Suspicious encoding detected"] else []) ++
  (if ["SELECT", "INSERT", "UPDATE", "DELETE"].any
        (fun keyword => strContains (strUpper data) keyword)
   then ["SQL-like pattern detected"] else [])

/-- `TripleIProtocol._check_inverse_axioms`. -/
def check_inverse_axioms (context : Ctx) : List String :=
  (if ctxGetD context "coherence" 0 > 1.5 ∧ ctxGetD context "separation" 0 > 2.0
   then ["Coherence-separation inverse violated"] else []) ++
  (if ctxGetD context "alignment" 0 > 1.5 ∧ ctxGetD context "dfruit_dt" 0 < 0
   then ["Alignment-growth inverse violated"] else [])

/-! ### Triple I protocol: the three layers -/

/-- Trace message appended by internal-layer rule 1. -/
def sanitizedMsg : String := "SANITIZED: Deletion attempt removed"

/-- Trace message appended by internal-layer rule 2. -/
def correctedMsg : String := "CORRECTED: Alignment enforced > separation"

/-- Trace message appended by internal-layer rule 3. -/
def warningMsg : String := "WARNING: High coherence requires high density"

/-- Trace message appended by internal-layer rule 4. -/
def clampedMsg : String := "CLAMPED: dFruit/dt limited to 10.0"

/-- Trace message appended by internal-layer rule 5. -/
def flaggedMsg : String := "FLAGGED: Repentance required for low QCI"

/-- Trace message appended by inverse-layer check 1. -/
def detectedMsg : String := "DETECTED: Flipped perspective shows higher coherence"

/-- Internal-layer rule 1 (axiom_1): sanitize deletion attempts in the
text.  Returns the (possibly rewritten) text and the trace entries it
appends. -/
def internalRule1 (input_data : String) : String × List String :=
  if contains_deletion_attempt input_data then
    (sanitize_deletion_attempt input_data, [sanitizedMsg])
  else
    (input_data, [])

/-- Internal-layer rule 2 (axiom_2): force `alignment > separation`.
Returns the updated context and the trace entries it appends. -/
def internalRule2 (context : Ctx) : Ctx × List String :=
  match ctxFind? context "alignment", ctxFind? context "separation" with
  | some alignment, some separation =>
    if alignment < separation then
      (ctxSet context "alignment" (separation + 0.1), [correctedMsg])
    else
      (context, [])
  | _, _ => (context, [])

/-- Internal-layer rule 3 (axiom_3): coherence/density warning
(no mutation). -/
def internalRule3 (context : Ctx) : List String :=
  match ctxFind? context "coherence", ctxFind? context "density" with
  | some coherence, some density =>
    if coherence > 1.5 ∧ density < 2.0 then [warningMsg] else []
  | _, _ => []

/-- Internal-layer rule 4 (axiom_4): clamp `dfruit_dt` to `10.0`. -/
def internalRule4 (context : Ctx) : Ctx × List String :=
  match ctxFind? context "dfruit_dt" with
  | some dfruit =>
    if dfruit > 10.0 then (ctxSet context "dfruit_dt" 10.0, [clampedMsg])
    else (context, [])
  | none => (context, [])

/-- Internal-layer rule 5 (axiom_5): flag low `qci` (no mutation); the
source compares against the literal `3.14159 / 4`. -/
def internalRule5 (context : Ctx) : List String :=
  match ctxFind? context "qci" with
  | some qci => if qci < 3.14159 / 4 then [flaggedMsg] else []
  | none => []

/-- `TripleIProtocol.internal_layer`: runs the five rules in order on the
shared context, returning the resulting text, the mutated context and the
accumulated trace (`transformations`) in append order. -/
def internal_layer (input_data : String) (context : Ctx) :
    String × Ctx × List String :=
  let r1 := internalRule1 input_data
  let r2 := internalRule2 context
  let t3 := internalRule3 r2.1
  let r4 := internalRule4 r2.1
  let t5 := internalRule5 r4.1
  (r1.1, r4.1, r1.2 ++ r2.2 ++ t3 ++ r4.2 ++ t5)

/-- Inverse-layer check 1: flipped alignment/separation perspective.
The source reads `original_alignment = context['alignment']`,
`original_separation = context['separation']` and calls
`_calculate_flipped_coherence(original_separation, original_alignment)`,
comparing against `context.get('coherence', 0)`.  The total model uses
`flippedCoherenceTotal`; at `separation = -1`, where the source raises
`ZeroDivisionError`, the total model diverges from the program (theorems
about this check therefore assume the division completes). -/
def inverseCheck1 (context : Ctx) : List String :=
  match ctxFind? context "alignment", ctxFind? context "separation" with
  | some original_alignment, some original_separation =>
    if flippedCoherenceTotal original_separation original_alignment >
        ctxGetD context "coherence" 0 then
      [detectedMsg]
    else []
  | _, _ => []

/-- `TripleIProtocol.inverse_layer`: copies the internal transformations,
runs the four read-only checks, and returns the text, the (untouched)
context, and the extended trace. -/
def inverse_layer (input_data : String) (context : Ctx)
    (internal_transformations : List String) :
    String × Ctx × List String :=
  let d1 := inverseCheck1 context
  let d2 := (detect_contradictions context).map (fun c => "CONTRADICTION: " ++ c)
  let d3 := (detect_hidden_patterns input_data).map (fun p => "PATTERN: " ++ p)
  let d4 := (check_inverse_axioms context).map (fun v => "INVERSE_VIOLATION: " ++ v)
  (input_data, context, internal_transformations ++ d1 ++ d2 ++ d3 ++ d4)

/-! ### Triple I protocol: invariant layer and `process`

SHA-256 and the JSON canonical serialisation are opaque primitives of the
Python runtime; the embedding abstracts them as parameters, bundled with
the wall-clock timestamp string produced by `datetime.utcnow()`. -/

/-- The opaque runtime primitives used by the invariant layer:
`sha256` is `hashlib.sha256(·).hexdigest()`;
`jsonLock` is `json.dumps({data, context, timestamp, covenant_multiplier},
sort_keys=True)`; `jsonOut` is `json.dumps(locked_output, sort_keys=True)`
for the five-field locked output; `now` is the timestamp string. -/
structure HashEnv where
  sha256 : String → String
  jsonLock : String → Ctx → String → ℚ → String
  jsonOut : String → Ctx → List String → String → String → String
  now : String

/-- The configured `COVENANT_MULTIPLIER` (default `5.0`). -/
def COVENANT_MULTIPLIER : ℚ := 5.0

/-- `TripleIProtocol._calculate_invariant_lock`: serialize
`{data, context, timestamp, covenant_multiplier}`, hash it once, then
re-hash the digest in a `for _ in range(5)` loop. -/
def calculate_invariant_lock (env : HashEnv) (data : String) (context : Ctx) :
    String :=
  let combined := env.jsonLock data context env.now COVENANT_MULTIPLIER
  let lock := env.sha256 combined
  (List.range 5).foldl (fun lock _ => env.sha256 lock) lock

/-- `TripleIProtocol._verify_invariant`: the lock is valid when it starts
with the first 8 characters of the output hash. -/
def verify_invariant (lock output_hash : String) : Bool :=
  lock.startsWith (output_hash.take 8)

/-- Result record of the Triple I protocol (`TripleIResult`). -/
structure TripleIResult where
  input_hash : String
  internal_validated : Bool
  inverse_applied : Bool
  invariant_locked : Bool
  output_hash : String
  transformations : List String
  timestamp : String
  status : String
  deriving Repr, DecidableEq

/-- `TripleIProtocol.invariant_layer`: hashes the input, computes the
invariant lock, serialises and hashes the locked output, and verifies the
lock.  The context is only read, never written. -/
def invariant_layer (env : HashEnv) (input_data : String) (context : Ctx)
    (all_transformations : List String) : TripleIResult :=
  let input_hash := env.sha256 input_data
  let invariant_lock := calculate_invariant_lock env input_data context
  let output_hash :=
    env.sha256 (env.jsonOut input_data context all_transformations
      invariant_lock env.now)
  let invariant_valid := verify_invariant invariant_lock output_hash
  { input_hash := input_hash
    internal_validated := decide (all_transformations.length > 0)
    inverse_applied := all_transformations.any
      (fun t => strContains t "INVERSE" || strContains t "PATTERN" ||
        strContains t "CONTRADICTION")
    invariant_locked := invariant_valid
    output_hash := output_hash
    transformations := all_transformations
    timestamp := env.now
    status := if invariant_valid then "LOCKED" else "VERIFICATION_FAILED" }

/-- `TripleIProtocol.process`: Internal → Inverse → Invariant, threading
the text, the shared mutable context and the accumulated transformation
list; also returns the final state of the context (which the Python code
mutates in place). -/
def process (env : HashEnv) (input_data : String) (context : Ctx) :
    TripleIResult × Ctx :=
  let internal := internal_layer input_data context
  let inverse := inverse_layer internal.1 internal.2.1 internal.2.2
  let final := invariant_layer env inverse.1 inverse.2.1 inverse.2.2
  (final, inverse.2.1)

/-- Modelled from the spec: the five-round chained hash of §4.2 Stage 3 —
"applies the hash function once to the canonical serialization, then
re-hashes the resulting digest four additional times (five rounds total)".
The repository has no such function; this is the spec's own description,
kept for comparison with `calculate_invariant_lock`. -/
def chainedHashSpec (hash : String → String) (s : String) : String :=
  Nat.iterate hash 4 (hash s)

/-! ### Decision pipeline (`core_improved.py` / `core.py`) -/

/-- Engine errors; `CoherenceCalculationError` is the `InvalidInput` of
the spec's error taxonomy. -/
inductive StarEngineError where
  | coherenceCalculationError
  | densityValidationError
  | repentanceError
  deriving Repr, DecidableEq

/-- `StarEngine.get_dynamic_invariant`, over an arbitrary linear ordered
field so that concrete rational instances are decidable.  Raises
`CoherenceCalculationError` on a negative coherence score, returns
`DYNAMIC_INVARIANT` above `HARMONY_RIDGE` and `HARMONY_RIDGE` otherwise. -/
def get_dynamic_invariant {α : Type} [LinearOrderedField α]
    (HARMONY_RIDGE DYNAMIC_INVARIANT : α) (coherence_score : α) :
    Except StarEngineError α :=
  if coherence_score < 0 then
    Except.error StarEngineError.coherenceCalculationError
  else if coherence_score > HARMONY_RIDGE then
    Except.ok DYNAMIC_INVARIANT
  else
    Except.ok HARMONY_RIDGE

/-- Default `HARMONY_RIDGE` (1.67). -/
def HARMONY_RIDGE : ℚ := 1.67

/-- Default `DYNAMIC_INVARIANT` (1.89). -/
def DYNAMIC_INVARIANT : ℚ := 1.89

/-- Configured `QCI_TARGET` (= π/2). -/
noncomputable def QCI_TARGET : ℝ := Real.pi / 2

/-- Configured `REPENTANCE_TRIGGER_THRESHOLD` (= π/4). -/
noncomputable def REPENTANCE_TRIGGER_THRESHOLD : ℝ := Real.pi / 4

/-- Configured `DENSITY_THRESHOLD` (3.34). -/
def DENSITY_THRESHOLD : ℝ := 3.34

/-- `StarEngine.calculate_dfruit_dt`: `(alignment - separation) / dt`,
returning `0` when `dt == 0`. -/
noncomputable def calculate_dfruit_dt (alignment separation dt : ℝ) : ℝ :=
  if dt = 0 then 0 else (alignment - separation) / dt

/-- `StarEngine.calculate_tif`: `abs(omega_truth - target_falsehood)`. -/
noncomputable def calculate_tif (omega_truth target_falsehood : ℝ) : ℝ :=
  |omega_truth - target_falsehood|

/-- `StarEngine.calculate_qci`, value part: `atan(tif / resistance)`,
with the zero-resistance case returning `QCI_TARGET` when `tif > 0` and
`0` otherwise. -/
noncomputable def calculate_qci (tif resistance : ℝ) : ℝ :=
  if resistance = 0 then (if tif > 0 then QCI_TARGET else 0)
  else Real.arctan (tif / resistance)

/-- QCI status labels assigned by `StarEngine.calculate_qci`. -/
inductive QCIStatus where
  | COHERENT
  | PARTIAL_COHERENCE
  | NEEDS_REPENTANCE
  deriving Repr, DecidableEq

/-- `StarEngine.calculate_qci`, status part: the threshold classification
on the computed `qci`, over an arbitrary linear ordered field with the
target as the configured `QCI_TARGET` value. -/
def qciStatusOf {α : Type} [LinearOrderedField α] (QCI_TARGET qci : α) :
    QCIStatus :=
  if qci ≥ QCI_TARGET * 0.75 then QCIStatus.COHERENT
  else if qci ≥ QCI_TARGET * 0.5 then QCIStatus.PARTIAL_COHERENCE
  else QCIStatus.NEEDS_REPENTANCE

/-- Rank of a QCI status, for the monotonicity property: higher is more
coherent. -/
def statusRank : QCIStatus → Nat
  | QCIStatus.NEEDS_REPENTANCE => 0
  | QCIStatus.PARTIAL_COHERENCE => 1
  | QCIStatus.COHERENT => 2

/-- `StarEngine.verify_density`: `density = (i1 * i2 * i3) * i4` checked
against `DENSITY_THRESHOLD`; returns `(is_valid, density)`. -/
noncomputable def verify_density (i1 i2 i3 i4 : ℝ) : Prop × ℝ :=
  let density := (i1 * i2 * i3) * i4
  (density ≥ DENSITY_THRESHOLD, density)

/-- Result of `StarEngine.repentance_protocol` (`core_improved.py`). -/
structure RepentanceRecord where
  status : String
  expose : String
  recompile : String
  purge : Bool
  reset : Bool
  new_qci : ℝ

/-- `StarEngine.repentance_protocol`: the fixed four-step reset; `new_qci`
is unconditionally `QCI_TARGET`. -/
noncomputable def repentance_protocol (sin_patterns : String) :
    RepentanceRecord :=
  { status := "REPENTANCE_COMPLETE"
    expose := "Exposed: " ++ sin_patterns
    recompile := "Recompiled: falsehood → truth"
    purge := true
    reset := true
    new_qci := QCI_TARGET }

/-- The numeric inputs of one pipeline evaluation (the spec's
`MetricSet`), as extracted from `params` by `operational_flow`. -/
structure MetricSet where
  alignment : ℝ
  separation : ℝ
  dt : ℝ
  omegaTruth : ℝ
  targetFalsehood : ℝ
  resistance : ℝ
  i1 : ℝ
  i2 : ℝ
  i3 : ℝ
  i4 : ℝ

/-- Verdicts of `StarEngine.operational_flow` (the three return
branches). -/
inductive Verdict where
  | RELEASED
  | REJECTED_LOW_COHERENCE
  | REJECTED_LOW_DENSITY
  deriving Repr, DecidableEq

/-- `StarEngine.operational_flow` (`core_improved.py`): compute the
derived metrics, apply the coherence gate (with the repentance protocol
attached on rejection), then the density gate. -/
noncomputable def operational_flow (p : MetricSet) :
    Verdict × Option RepentanceRecord :=
  let _dfruit := calculate_dfruit_dt p.alignment p.separation p.dt
  let tif := calculate_tif p.omegaTruth p.targetFalsehood
  let qci := calculate_qci tif p.resistance
  if qci < REPENTANCE_TRIGGER_THRESHOLD then
    (Verdict.REJECTED_LOW_COHERENCE,
      some (repentance_protocol "Low QCI detected"))
  else
    let density := (p.i1 * p.i2 * p.i3) * p.i4
    if ¬ (density ≥ DENSITY_THRESHOLD) then
      (Verdict.REJECTED_LOW_DENSITY, none)
    else
      (Verdict.RELEASED, none)

/-- Two metric sets that agree on everything except the four integrity
factors `i1..i4` (used to state that the coherence gate short-circuits the
density check). -/
def sameExceptIntegrity (p q : MetricSet) : Prop :=
  p.alignment = q.alignment ∧ p.separation = q.separation ∧ p.dt = q.dt ∧
  p.omegaTruth = q.omegaTruth ∧ p.targetFalsehood = q.targetFalsehood ∧
  p.resistance = q.resistance

/-! ### Shared concrete instances and helper lemmas -/

/-- A concrete hash environment for evaluating the protocol on explicit
inputs: a one-step prefixing "hash" and constant serialisers. -/
def envProbe : HashEnv :=
  { sha256 := fun s => "#" ++ s
    jsonLock := fun _ _ _ _ => ""
    jsonOut := fun _ _ _ _ _ => ""
    now := "" }

/-- A concrete spec-side canonical serialiser (constant), for evaluating
`chainedHashSpec` on explicit inputs. -/
def specSerializeProbe : String → Ctx → List String → String → ℚ → String :=
  fun _ _ _ _ _ => ""

/-- Context used for concrete Stage-2 evaluations. -/
def ctxProbe : Ctx := [("alignment", 3), ("separation", 1), ("coherence", 1)]

/-- Context used for concrete `process` evaluations. -/
def ctxProbe2 : Ctx := [("alignment", 1), ("separation", 5)]

/-! ### C1: Stage-3 lock digest -/

/-- C1, counterexample: the claimed equation
`lock = chainedHash(canonicalSerialize({text, context, transformationsSoFar,
timestamp, covenantMultiplier}))` with five hash rounds in total fails
already at the empty text and context: whatever canonical serialisation the
spec side uses (here a constant one), the code applies the hash function six
times, not five, so the digests differ. -/
theorem C1_counterexample :
    calculate_invariant_lock envProbe "" [] ≠
      chainedHashSpec envProbe.sha256
        (specSerializeProbe "" [] [] "" COVENANT_MULTIPLIER) := by
  decide

/-- C1, amended: for every hash/serialisation environment, text and
context, the Stage-3 lock digest applies the hash function six times in
total (once to the canonical serialization, then five re-hashes of the
digest) to the serialisation of the payload
`{text, context, timestamp, covenantMultiplier}` — the accumulated
transformation list is not part of the hashed payload (the source function
does not even receive it). -/
theorem C1_prop (env : HashEnv) (data : String) (context : Ctx) :
    calculate_invariant_lock env data context =
      Nat.iterate env.sha256 6
        (env.jsonLock data context env.now COVENANT_MULTIPLIER) := by
  rfl

/-! ### C2: Stage-1 sanitisation -/

theorem count_sanitized_rule2 (c : Ctx) :
    List.count sanitizedMsg (internalRule2 c).2 = 0 := by
  unfold internalRule2
  cases ctxFind? c "alignment" <;> cases ctxFind? c "separation" <;> simp
  split <;> simp [sanitizedMsg, correctedMsg]

theorem count_sanitized_rule3 (c : Ctx) :
    List.count sanitizedMsg (internalRule3 c) = 0 := by
  unfold internalRule3
  cases ctxFind? c "coherence" <;> cases ctxFind? c "density" <;> simp
  split <;> simp [sanitizedMsg, warningMsg]

theorem count_sanitized_rule4 (c : Ctx) :
    List.count sanitizedMsg (internalRule4 c).2 = 0 := by
  unfold internalRule4
  cases ctxFind? c "dfruit_dt" <;> simp
  split <;> simp [sanitizedMsg, clampedMsg]

theorem count_sanitized_rule5 (c : Ctx) :
    List.count sanitizedMsg (internalRule5 c) = 0 := by
  unfold internalRule5
  cases ctxFind? c "qci" <;> simp
  split <;> simp [sanitizedMsg, flaggedMsg]

/-- C2, amended: Stage 1 detects blocklist tokens case-insensitively, but
the replacement is the (case-sensitive) successive `replace` of the
uppercase tokens; exactly one `SANITIZED` trace entry is appended in total
when any blocklist token occurs, and none otherwise — not one per distinct
token type. -/
theorem C2_prop (text : String) (ctx : Ctx) :
    (internal_layer text ctx).1 =
      (if contains_deletion_attempt text then sanitize_deletion_attempt text
       else text) ∧
    List.count sanitizedMsg (internal_layer text ctx).2.2 =
      (if contains_deletion_attempt text then 1 else 0) := by
  unfold internal_layer internalRule1
  constructor
  · split <;> rfl
  · simp [List.count_append, count_sanitized_rule2, count_sanitized_rule3,
      count_sanitized_rule4, count_sanitized_rule5]
    split <;> simp [sanitizedMsg]

/-- C2, counterexample: on input `"delete DROP"` the claim predicts that
the (case-insensitively matched) occurrence `delete` is replaced and that
two distinct token types yield two `SANITIZED` entries; the code leaves the
lowercase `delete` in the returned text and appends exactly one `SANITIZED`
entry. -/
theorem C2_counterexample :
    contains_deletion_attempt "delete" = true ∧
    (internal_layer "delete DROP" []).1 = "delete [DROP_BLOCKED]" ∧
    strContains "delete [DROP_BLOCKED]" "delete" = true ∧
    List.count sanitizedMsg (internal_layer "delete DROP" []).2.2 = 1 ∧
    (1 : Nat) ≠ 2 := by
  decide

/-! ### C3: Stage-2 flipped coherence -/

theorem count_detected_contradictions (c : Ctx) :
    List.count detectedMsg
      ((detect_contradictions c).map (fun s => "CONTRADICTION: " ++ s)) = 0 := by
  unfold detect_contradictions
  split <;> split <;> split <;> simp [detectedMsg]

theorem count_detected_patterns (data : String) :
    List.count detectedMsg
      ((detect_hidden_patterns data).map (fun s => "PATTERN: " ++ s)) = 0 := by
  unfold detect_hidden_patterns
  split <;> split <;> split <;> simp [detectedMsg]

theorem count_detected_inverse_axioms (c : Ctx) :
    List.count detectedMsg
      ((check_inverse_axioms c).map (fun s => "INVERSE_VIOLATION: " ++ s)) = 0 := by
  unfold check_inverse_axioms
  split <;> split <;> simp [detectedMsg]

/-- C3, amended: when both `alignment` and `separation` are present and
the helper's division completes (it raises `ZeroDivisionError` at
`separation = -1`), the computed flipped coherence equals
`alignment / (separation + 1)` (the helper's own coherence model applied
to the original values — not `separation / (alignment + 1)`), and a
`DETECTED` entry is appended if and only if this value exceeds the current
`coherence` value in the context (`0` when absent). -/
theorem C3_prop (text : String) (ctx : Ctx) (ts : List String) (a s v : ℚ)
    (ha : ctxFind? ctx "alignment" = some a)
    (hs : ctxFind? ctx "separation" = some s)
    (hv : calculate_flipped_coherence s a = some v) :
    v = a / (s + 1) ∧
    List.count detectedMsg (inverse_layer text ctx ts).2.2 =
      List.count detectedMsg ts +
        (if v > ctxGetD ctx "coherence" 0 then 1 else 0) := by
  have hval : v = a / (s + 1) := by
    unfold calculate_flipped_coherence at hv
    by_cases h1 : s + 1 = 0
    · rw [if_pos h1] at hv
      exact absurd hv (by simp)
    · rw [if_neg h1] at hv
      exact (Option.some.injEq _ _).mp hv.symm
  have htot : flippedCoherenceTotal s a = v := by
    rw [hval]; rfl
  refine ⟨hval, ?_⟩
  unfold inverse_layer inverseCheck1
  rw [ha, hs]
  dsimp only
  rw [htot]
  simp only [List.count_append, count_detected_contradictions,
    count_detected_patterns, count_detected_inverse_axioms]
  split <;> simp

/-- C3, counterexample: with `alignment = 3`, `separation = 1`,
`coherence = 1` (the division completes: `separation ≠ -1`), the code's
flipped coherence is `3/2` while the claimed
`separation / (alignment + 1)` is `1/4`; the claimed value does not exceed
the coherence, yet a `DETECTED` entry is appended. -/
theorem C3_counterexample :
    calculate_flipped_coherence 1 3 = some (3 / 2) ∧
    (3 : ℚ) / 2 ≠ 1 / (3 + 1) ∧
    ¬ ((1 : ℚ) / (3 + 1) > ctxGetD ctxProbe "coherence" 0) ∧
    List.count detectedMsg (inverse_layer "" ctxProbe []).2.2 = 1 := by
  refine ⟨by norm_num [calculate_flipped_coherence], by norm_num, ?_, ?_⟩
  · simp only [ctxProbe, ctxGetD, ctxFind?]
    simp
    norm_num
  · simp only [inverse_layer, inverseCheck1, ctxFind?, ctxGetD,
      flippedCoherenceTotal, detect_contradictions, detect_hidden_patterns,
      check_inverse_axioms, strContains, strUpper, lowercaseAlphabet, listIsInfixOf,
      ctxProbe]
    simp [detectedMsg, List.count]
    norm_num

theorem C3_witness :
    ctxFind? ctxProbe "alignment" = some 3 ∧
    ctxFind? ctxProbe "separation" = some 1 ∧
    calculate_flipped_coherence 1 3 = some (3 / 2) ∧
    (3 : ℚ) / 2 = 3 / (1 + 1) :=
  ⟨rfl, rfl, by norm_num [calculate_flipped_coherence],
    (C3_prop "" ctxProbe [] 3 1 (3 / 2) rfl rfl
      (by norm_num [calculate_flipped_coherence])).1⟩

/-! ### C9: Stage 2 is read-only -/

/-- C9: the inverse-perspective stage is read-only — for every text,
context and incoming transformation list, it returns the text and the
context exactly as given and only appends trace entries (the incoming list
is a prefix of the outgoing one). -/
theorem C9_prop (text : String) (ctx : Ctx) (ts : List String) :
    (inverse_layer text ctx ts).1 = text ∧
    (inverse_layer text ctx ts).2.1 = ctx ∧
    ts <+: (inverse_layer text ctx ts).2.2 := by
  refine ⟨rfl, rfl, ?_⟩
  unfold inverse_layer
  simp only [List.append_assoc]
  exact List.prefix_append ts _

/-! ### C10: `process` establishes `alignment ≥ separation` -/

theorem ctxFind_ctxSet_same (c : Ctx) (k : String) (v : ℚ) :
    ctxFind? (ctxSet c k v) k = some v := by
  induction c with
  | nil => simp [ctxSet, ctxFind?]
  | cons kv rest ih =>
    obtain ⟨k', v'⟩ := kv
    by_cases h : k' = k <;> simp [ctxSet, ctxFind?, h, ih]

theorem ctxFind_ctxSet_ne (c : Ctx) (k k' : String) (v : ℚ) (h : k ≠ k') :
    ctxFind? (ctxSet c k v) k' = ctxFind? c k' := by
  induction c with
  | nil => simp [ctxSet, ctxFind?, h]
  | cons kv rest ih =>
    obtain ⟨k₀, v₀⟩ := kv
    by_cases h₀ : k₀ = k <;> simp [ctxSet, ctxFind?, h₀, h, ih]

theorem internalRule4_preserves (c : Ctx) (k : String)
    (hk : k ≠ "dfruit_dt") :
    ctxFind? (internalRule4 c).1 k = ctxFind? c k := by
  unfold internalRule4
  cases ctxFind? c "dfruit_dt" with
  | none => rfl
  | some d =>
    simp only []
    split
    · simp [ctxFind_ctxSet_ne c "dfruit_dt" k 10.0 (fun h => hk h.symm)]
    · rfl

/-- C10: for every input context containing both `alignment` and
`separation`, the context returned by `process` satisfies
`alignment ≥ separation` (Stage 1 forces `alignment := separation + 0.1`
whenever `alignment < separation`, and no later stage mutates these
keys). -/
theorem C10_prop (env : HashEnv) (text : String) (ctx : Ctx) (a s : ℚ)
    (ha : ctxFind? ctx "alignment" = some a)
    (hs : ctxFind? ctx "separation" = some s) :
    ∃ a' s', ctxFind? (process env text ctx).2 "alignment" = some a' ∧
      ctxFind? (process env text ctx).2 "separation" = some s' ∧ s' ≤ a' := by
  have hproc : (process env text ctx).2 = (internalRule4 (internalRule2 ctx).1).1 := rfl
  have hal : "alignment" ≠ "dfruit_dt" := by decide
  have hse : "separation" ≠ "dfruit_dt" := by decide
  have hsa : "alignment" ≠ "separation" := by decide
  rw [hproc, internalRule4_preserves _ _ hal, internalRule4_preserves _ _ hse]
  unfold internalRule2
  rw [ha, hs]
  dsimp only
  by_cases hlt : a < s
  · rw [if_pos hlt]
    refine ⟨s + 0.1, s, ?_, ?_, by linarith⟩
    · simp [ctxFind_ctxSet_same]
    · rw [ctxFind_ctxSet_ne ctx "alignment" "separation" _ hsa]
      exact hs
  · rw [if_neg hlt]
    exact ⟨a, s, ha, hs, le_of_not_lt hlt⟩

theorem C10_witness :
    ctxFind? ctxProbe2 "alignment" = some 1 ∧
    ctxFind? ctxProbe2 "separation" = some 5 ∧
    (∃ a' s', ctxFind? (process envProbe "" ctxProbe2).2 "alignment" = some a' ∧
      ctxFind? (process envProbe "" ctxProbe2).2 "separation" = some s' ∧
      s' ≤ a') :=
  ⟨rfl, rfl, C10_prop envProbe "" ctxProbe2 1 5 rfl rfl⟩

/-! ### C4: range of the coherence index -/

/-- C4, counterexample: with `omegaTruth = 1`, `targetFalsehood = 0` and
`resistance = -1` (resistance unconstrained in sign, as the claim allows),
the derived coherence index is `atan(-1) = -π/4`, outside `[0, qciTarget]`. -/
theorem C4_counterexample :
    ¬ (calculate_qci (calculate_tif 1 0) (-1) ∈ Set.Icc (0 : ℝ) QCI_TARGET) := by
  have h1 : calculate_tif 1 0 = 1 := by
    simp [calculate_tif]
  have h2 : calculate_qci 1 (-1) = -(Real.pi / 4) := by
    rw [calculate_qci, if_neg (by norm_num)]
    norm_num [Real.arctan_neg, Real.arctan_one]
  rw [h1, h2]
  intro hmem
  have h0 := hmem.1
  nlinarith [Real.pi_pos]

/-- C4, amended: for every MetricSet with `resistance ≥ 0`, the derived
coherence index lies in the closed interval `[0, qciTarget]`. -/
theorem C4_prop (omega_truth target_falsehood resistance : ℝ)
    (hr : 0 ≤ resistance) :
    calculate_qci (calculate_tif omega_truth target_falsehood) resistance ∈
      Set.Icc (0 : ℝ) QCI_TARGET := by
  have hpi : (0 : ℝ) < Real.pi := Real.pi_pos
  have htif : 0 ≤ calculate_tif omega_truth target_falsehood :=
    abs_nonneg _
  rcases eq_or_lt_of_le hr with h0 | hpos
  · rw [calculate_qci, if_pos h0.symm]
    split
    · exact ⟨by rw [QCI_TARGET]; positivity, le_refl _⟩
    · exact ⟨le_refl 0, by rw [QCI_TARGET]; positivity⟩
  · rw [calculate_qci, if_neg (ne_of_gt hpos)]
    constructor
    · have hmono := Real.arctan_strictMono.monotone
        (show (0 : ℝ) ≤ calculate_tif omega_truth target_falsehood / resistance
          from div_nonneg htif hr)
      rwa [Real.arctan_zero] at hmono
    · rw [QCI_TARGET]
      exact (Real.arctan_lt_pi_div_two _).le

theorem C4_witness :
    (0 : ℝ) ≤ 0 ∧
    calculate_qci (calculate_tif 1 0) 0 ∈ Set.Icc (0 : ℝ) QCI_TARGET :=
  ⟨le_refl 0, C4_prop 1 0 0 (le_refl 0)⟩

/-! ### C5: the coherence gate -/

/-- C5: whenever the derived coherence index is strictly below the
repentance threshold, `operational_flow` returns
`REJECTED_LOW_COHERENCE` with a correction record attached, that record's
`new_qci` is exactly `QCI_TARGET`, and no density check is performed: the
output does not depend on the integrity factors `i1..i4`. -/
theorem C5_prop (p : MetricSet)
    (h : calculate_qci (calculate_tif p.omegaTruth p.targetFalsehood)
      p.resistance < REPENTANCE_TRIGGER_THRESHOLD) :
    operational_flow p =
      (Verdict.REJECTED_LOW_COHERENCE,
        some (repentance_protocol "Low QCI detected")) ∧
    (∃ r, (operational_flow p).2 = some r ∧ r.new_qci = QCI_TARGET) ∧
    (∀ q, sameExceptIntegrity p q → operational_flow q = operational_flow p) := by
  have hflow : operational_flow p =
      (Verdict.REJECTED_LOW_COHERENCE,
        some (repentance_protocol "Low QCI detected")) := by
    unfold operational_flow
    rw [if_pos h]
  refine ⟨hflow, ⟨repentance_protocol "Low QCI detected", by rw [hflow], rfl⟩, ?_⟩
  intro q hq
  obtain ⟨h1, h2, h3, h4, h5, h6⟩ := hq
  have hq' : calculate_qci (calculate_tif q.omegaTruth q.targetFalsehood)
      q.resistance < REPENTANCE_TRIGGER_THRESHOLD := by
    rw [← h4, ← h5, ← h6]; exact h
  rw [hflow]
  unfold operational_flow
  rw [if_pos hq']

theorem C5_witness :
    calculate_qci (calculate_tif 1 1) 1 < REPENTANCE_TRIGGER_THRESHOLD ∧
    operational_flow ⟨0, 0, 1, 1, 1, 1, 1, 1, 1, 1⟩ =
      (Verdict.REJECTED_LOW_COHERENCE,
        some (repentance_protocol "Low QCI detected")) := by
  have h : calculate_qci (calculate_tif 1 1) 1 < REPENTANCE_TRIGGER_THRESHOLD := by
    have ht : calculate_tif 1 1 = 0 := by simp [calculate_tif]
    rw [ht, calculate_qci, if_neg (by norm_num), REPENTANCE_TRIGGER_THRESHOLD]
    norm_num [Real.arctan_zero]
    positivity
  exact ⟨h, (C5_prop ⟨0, 0, 1, 1, 1, 1, 1, 1, 1, 1⟩ h).1⟩

/-! ### C6: the dynamic-invariant classifier -/

/-- C6: `get_dynamic_invariant` fails (with the calculation error that
realises the spec's `InvalidInput`) exactly when the coherence score is
negative; on non-negative scores it returns the dynamic invariant above the
harmony ridge and the harmony ridge otherwise; with the default
configuration, `1.5 ↦ 1.67`, `1.95 ↦ 1.89`, and `-1.0` fails. -/
theorem C6_prop {α : Type} [LinearOrderedField α]
    (HR DI score : α) :
    (get_dynamic_invariant HR DI score =
        Except.error StarEngineError.coherenceCalculationError ↔ score < 0) ∧
    (0 ≤ score → score > HR → get_dynamic_invariant HR DI score = Except.ok DI) ∧
    (0 ≤ score → ¬ score > HR →
      get_dynamic_invariant HR DI score = Except.ok HR) ∧
    get_dynamic_invariant (α := ℚ) HARMONY_RIDGE DYNAMIC_INVARIANT 1.5 =
      Except.ok 1.67 ∧
    get_dynamic_invariant (α := ℚ) HARMONY_RIDGE DYNAMIC_INVARIANT 1.95 =
      Except.ok 1.89 ∧
    get_dynamic_invariant (α := ℚ) HARMONY_RIDGE DYNAMIC_INVARIANT (-1.0) =
      Except.error StarEngineError.coherenceCalculationError := by
  refine ⟨?_, ?_, ?_, ?_, ?_, ?_⟩
  · unfold get_dynamic_invariant
    split_ifs with h1 h2 <;> simp [h1]
  · intro h0 hgt
    unfold get_dynamic_invariant
    rw [if_neg (not_lt.mpr h0), if_pos hgt]
  · intro h0 hngt
    unfold get_dynamic_invariant
    rw [if_neg (not_lt.mpr h0), if_neg hngt]
  · norm_num [get_dynamic_invariant, HARMONY_RIDGE, DYNAMIC_INVARIANT]
  · norm_num [get_dynamic_invariant, HARMONY_RIDGE, DYNAMIC_INVARIANT]
  · norm_num [get_dynamic_invariant]

theorem C6_witness :
    (0 : ℚ) ≤ 2 ∧ (2 : ℚ) > HARMONY_RIDGE ∧
    get_dynamic_invariant (α := ℚ) HARMONY_RIDGE DYNAMIC_INVARIANT 2 =
      Except.ok DYNAMIC_INVARIANT :=
  ⟨by norm_num, by norm_num [HARMONY_RIDGE],
    (C6_prop HARMONY_RIDGE DYNAMIC_INVARIANT 2).2.1 (by norm_num)
      (by norm_num [HARMONY_RIDGE])⟩

/-! ### C7: the QCI status classification -/

/-- C7: for a non-negative target, the status classification maps indices
at or above `0.75·target` to `COHERENT`, indices in
`[0.5·target, 0.75·target)` to `PARTIAL_COHERENCE`, and anything below
`0.5·target` to `NEEDS_REPENTANCE`; the status rank is monotone
non-decreasing in the coherence index.  The configured target `π/2` is
non-negative, so the claim's instance follows. -/
theorem C7_prop {α : Type} [LinearOrderedField α] (target x y : α)
    (htarget : 0 ≤ target) :
    (x ≥ target * 0.75 → qciStatusOf target x = QCIStatus.COHERENT) ∧
    (x ≥ target * 0.5 → x < target * 0.75 →
      qciStatusOf target x = QCIStatus.PARTIAL_COHERENCE) ∧
    (x < target * 0.5 → qciStatusOf target x = QCIStatus.NEEDS_REPENTANCE) ∧
    (x ≤ y → statusRank (qciStatusOf target x) ≤ statusRank (qciStatusOf target y)) := by
  have h57 : target * 0.5 ≤ target * 0.75 := by nlinarith
  refine ⟨?_, ?_, ?_, ?_⟩
  · intro h
    unfold qciStatusOf
    rw [if_pos h]
  · intro h5 h7
    unfold qciStatusOf
    rw [if_neg (not_le.mpr h7), if_pos h5]
  · intro h5
    unfold qciStatusOf
    rw [if_neg (not_le.mpr (lt_of_lt_of_le h5 h57)), if_neg (not_le.mpr h5)]
  · intro hxy
    unfold qciStatusOf statusRank
    split_ifs <;> simp_all <;> linarith

theorem C7_witness :
    (0 : ℚ) ≤ 2 ∧
    qciStatusOf (2 : ℚ) 1.6 = QCIStatus.COHERENT ∧
    qciStatusOf (2 : ℚ) 1.2 = QCIStatus.PARTIAL_COHERENCE ∧
    qciStatusOf (2 : ℚ) 0.5 = QCIStatus.NEEDS_REPENTANCE ∧
    statusRank (qciStatusOf (2 : ℚ) 0.5) ≤ statusRank (qciStatusOf (2 : ℚ) 1.6) :=
  ⟨by norm_num,
    (C7_prop (2 : ℚ) 1.6 1.6 (by norm_num)).1 (by norm_num),
    (C7_prop (2 : ℚ) 1.2 1.2 (by norm_num)).2.1 (by norm_num) (by norm_num),
    (C7_prop (2 : ℚ) 0.5 0.5 (by norm_num)).2.2.1 (by norm_num),
    (C7_prop (2 : ℚ) 0.5 1.6 (by norm_num)).2.2.2 (by norm_num)⟩

/-! ### C8: totality on zero denominators -/

/-- C8: the derived-metric computation is total on zero denominators — the
growth rate at `dt = 0` is exactly `0`, and with `resistance = 0` and a
positive truth gap the coherence index is exactly `QCI_TARGET`. -/
theorem C8_prop (alignment separation omega_truth target_falsehood : ℝ) :
    calculate_dfruit_dt alignment separation 0 = 0 ∧
    (calculate_tif omega_truth target_falsehood > 0 →
      calculate_qci (calculate_tif omega_truth target_falsehood) 0 = QCI_TARGET) := by
  constructor
  · simp [calculate_dfruit_dt]
  · intro h
    rw [calculate_qci, if_pos rfl, if_pos h]

theorem C8_witness :
    calculate_tif 1 0 > 0 ∧
    calculate_qci (calculate_tif 1 0) 0 = QCI_TARGET := by
  have h : calculate_tif 1 0 > 0 := by simp [calculate_tif]
  exact ⟨h, (C8_prop 0 0 1 0).2 h⟩
